import Mathlib

/-
Shallow embedding of the NetsBlox project decoder (`src/ast.rs`) and proofs
about its symbol tables, scope resolution, and block decoding.

The XML event-stream ingestion (`parse_xml_root`, `Parser::parse`) is the
out-of-scope collaborator from the spec; the embedding starts from the
materialized generic tree (`Xml`).  Machine floats (`f64`) are represented
exactly as rationals; the only numeric values the source manipulates are
literal constants and parsed decimal literals.  Rust `Result` becomes
`Except`; reachable `panic!`/`unwrap`/`unreachable!` sites are modelled by a
dedicated `Error.Panic` (resp. `SymbolError.Panic`) outcome.
-/

/-- Embeds `clean_newlines` (src/ast.rs line 28): the regex replaces each
occurrence of CRLF, CR, or LF by a single LF.  Implemented by direct
recursion over the characters. -/
def cleanNewlinesAux : List Char → List Char
  | [] => []
  | '\r' :: '\n' :: rest => '\n' :: cleanNewlinesAux rest
  | '\r' :: rest => '\n' :: cleanNewlinesAux rest
  | c :: rest => c :: cleanNewlinesAux rest

/-- String-level wrapper for `clean_newlines`. -/
def cleanNewlines (s : String) : String := ⟨cleanNewlinesAux s.data⟩

/-- Embeds `XmlAttr` (src/ast.rs line 33). -/
structure XmlAttr where
  name : String
  value : String

/-- Embeds `Xml` (src/ast.rs line 38): tag name, concatenated text, attribute
list, ordered children. -/
inductive Xml where
  | mk (name text : String) (attrs : List XmlAttr) (children : List Xml)

def Xml.name : Xml → String
  | .mk n _ _ _ => n

def Xml.text : Xml → String
  | .mk _ t _ _ => t

def Xml.attrs : Xml → List XmlAttr
  | .mk _ _ a _ => a

def Xml.children : Xml → List Xml
  | .mk _ _ _ c => c

/-- Attribute lookup on a raw attribute list; embeds the body of
`Xml::attr` (src/ast.rs line 51): first attribute with the given name. -/
def findAttr (attrs : List XmlAttr) (name : String) : Option XmlAttr :=
  attrs.find? (fun a => a.name = name)

/-- Embeds `Xml::attr` (src/ast.rs line 51). -/
def Xml.attr (x : Xml) (name : String) : Option XmlAttr :=
  findAttr x.attrs name

/-- Embeds `Xml::get` (src/ast.rs line 45): walk down the path, at each step
taking the first child with the requested tag name. -/
def Xml.get (x : Xml) : List String → Option Xml
  | [] => some x
  | first :: rest =>
    match x.children.find? (fun c => c.name = first) with
    | some c => c.get rest
    | none => none

/-- Embeds `Constant` (src/ast.rs line 302). -/
inductive Constant where
  | E
  | Pi

/-- Embeds `Value` (src/ast.rs line 265).  `f64` is modelled exactly as `ℚ`. -/
inductive Value where
  | Bool (b : Bool)
  | Number (n : ℚ)
  | String (s : String)
  | List (vs : List Value)
  | Constant (c : Constant)

/-- Embeds `VariableDef` (src/ast.rs line 195). -/
structure VariableDef where
  name : String
  trans_name : String
  value : Value

/-- Embeds `VarLocation` (src/ast.rs line 214). -/
inductive VarLocation where
  | Global
  | Field
  | Local

/-- Embeds `VariableRef` (src/ast.rs line 207). -/
structure VariableRef where
  name : String
  trans_name : String
  location : VarLocation

/-- Embeds `VariableDef::ref_at` (src/ast.rs line 201). -/
def VariableDef.refAt (d : VariableDef) (location : VarLocation) : VariableRef :=
  ⟨d.name, d.trans_name, location⟩

/-- Embeds `SymbolError` (src/ast.rs line 128).  `Panic` additionally models
the reachable `.unwrap()` panic inside `SymbolTable::define` (line 156): the
original name retrieved from `trans_to_orig` need not have a definition. -/
inductive SymbolError where
  | NameTransformError (name : String)
  | ConflictingTrans (trans_name : String) (names : String × String)
  | Panic

/-- Models the pluggable `name_transformer` field of `Parser`
(src/ast.rs line 941): `Result<String, ()>` becomes `Option String`. -/
def Transformer : Type := String → Option String

/-- Models the default name transformer `|v| Ok(v.into())`
(src/ast.rs line 940). -/
def idTransformer : Transformer := fun s => some s

/-- Insert into a `LinkedHashMap` (the map type of both symbol-table
indices): replacing an existing key keeps its position and returns the old
value, a new key is appended at the end. -/
def lhmInsert {α : Type} (m : List (String × α)) (k : String) (v : α) :
    List (String × α) × Option α :=
  match m with
  | [] => ([(k, v)], none)
  | (k', v') :: rest =>
    if k' = k then ((k, v) :: rest, some v')
    else
      let (m', old) := lhmInsert rest k v
      ((k', v') :: m', old)

/-- Lookup in a `LinkedHashMap`. -/
def lhmGet {α : Type} (m : List (String × α)) (k : String) : Option α :=
  (m.find? (fun p => p.1 = k)).map (fun p => p.2)

/-- Embeds `SymbolTable` (src/ast.rs line 133) minus the back-reference to
the parser (the transformer is passed explicitly instead).  Both
`LinkedHashMap` indices are insertion-ordered association lists. -/
structure SymbolTable where
  origToDef : List (String × VariableDef)
  transToOrig : List (String × String)

/-- Embeds `SymbolTable::new` (src/ast.rs line 139). -/
def SymbolTable.empty : SymbolTable := ⟨[], []⟩

/-- Embeds `SymbolTable::get` (src/ast.rs line 164). -/
def SymbolTable.get (st : SymbolTable) (name : String) : Option VariableDef :=
  lhmGet st.origToDef name

/-- Embeds `SymbolTable::into_defs` (src/ast.rs line 167). -/
def SymbolTable.intoDefs (st : SymbolTable) : List VariableDef :=
  st.origToDef.map (fun p => p.2)

/-- Embeds `SymbolTable::define` (src/ast.rs line 152).  Note: faithfully to
line 160 of the source, the successful branch inserts into `trans_to_orig`
keyed by the ORIGINAL name (`name`), not by the transformed name, while the
collision check on line 155 looks the TRANSFORMED name up.  The `.unwrap()`
on line 156 is modelled by the `SymbolError.Panic` outcome. -/
def SymbolTable.define (tr : Transformer) (st : SymbolTable) (name : String)
    (value : Value) : Except SymbolError (Option VariableDef × SymbolTable) :=
  match tr name with
  | none => .error (.NameTransformError name)
  | some transName =>
    let entry : VariableDef := ⟨name, transName, value⟩
    match lhmGet st.transToOrig transName with
    | some orig =>
      match lhmGet st.origToDef orig with
      | some d => .error (.ConflictingTrans transName (d.name, name))
      | none => .error .Panic
    | none =>
      let t2o := (lhmInsert st.transToOrig name transName).1
      let ins := lhmInsert st.origToDef name entry
      .ok (ins.2, ⟨ins.1, t2o⟩)

/-- Embeds `ProjectError` (src/ast.rs line 80), minus the JSON payload
variants that only the out-of-scope loaders produce. -/
inductive ProjectError where
  | NoRoot
  | UnnamedRole
  | ValueNotEvaluated (role : String) (sprite : Option String)
  | InvalidJson (reason : String)
  | NoRoleContent (role : String)
  | NoStageDef (role : String)
  | UnnamedGlobal (role : String)
  | GlobalNoValue (role name : String)
  | GlobalsWithSameName (role name : String)
  | UnnamedField (role sprite : String)
  | FieldNoValue (role sprite name : String)
  | FieldsWithSameName (role sprite name : String)
  | ListItemNoValue (role sprite : String)
  | BoolNoValue (role sprite : String)
  | BoolUnknownValue (role sprite value : String)
  | UnnamedSprite (role : String)
  | UnknownBlockMetaType (role sprite meta_type : String)
  | BlockWithoutType (role sprite : String)
  | BlockChildCount (role sprite block_type : String) (needed got : Nat)
  | BlockMissingOption (role sprite block_type : String)
  | BlockOptionUnknown (role sprite block_type got : String)
  | InvalidBoolLiteral (role sprite : String)
  | NonConstantUpvar (role sprite block_type : String)

/-- Embeds `Error` (src/ast.rs line 112) minus `InvalidXml` (the transport
collaborator never reaches the embedded tree decoders).  `Panic` models the
reachable Rust panics (`unwrap` in `define_local_and_ref`, `assert_eq!` in
`RoleInfo::parse`, out-of-bounds slice indexing, `unreachable!`). -/
inductive Error where
  | InvalidProject (error : ProjectError)
  | NameTransformError (name : String) (role sprite : Option String)
  | UnknownBlockType (role sprite block_type : String)
  | DerefAssignment (role sprite : String)
  | UndefinedVariable (role sprite name : String)
  | BlockOptionNotConst (role sprite block_type : String)
  | BlockOptionNotSelected (role sprite block_type : String)
  | GlobalsWithSameTransName (role trans_name : String) (names : String × String)
  | FieldsWithSameTransName (role sprite trans_name : String) (names : String × String)
  | LocalsWithSameTransName (role sprite trans_name : String) (names : String × String)
  | Panic

/-- Embeds `Hat` (src/ast.rs line 225). -/
inductive Hat where
  | OnFlag (comment : Option String)
  | OnKey (key : String) (comment : Option String)

/-- Embeds `Expr` (src/ast.rs line 307); `Box<Expr>` indirection disappears,
`Option<Box<Expr>>` becomes `Option Expr` (the `from`/`to` fields of
`ListSlice` are named `sliceFrom`/`sliceTo` since `from` is reserved). -/
inductive Expr where
  | Value (v : Value)
  | Variable (var : VariableRef) (comment : Option String)
  | Add (left right : Expr) (comment : Option String)
  | Sub (left right : Expr) (comment : Option String)
  | Mul (left right : Expr) (comment : Option String)
  | Div (left right : Expr) (comment : Option String)
  | Mod (left right : Expr) (comment : Option String)
  | Pow (base power : Expr) (comment : Option String)
  | Log (value base : Expr) (comment : Option String)
  | And (left right : Expr) (comment : Option String)
  | Or (left right : Expr) (comment : Option String)
  | Conditional (condition then_ otherwise : Expr) (comment : Option String)
  | RefEq (left right : Expr) (comment : Option String)
  | Eq (left right : Expr) (comment : Option String)
  | Less (left right : Expr) (comment : Option String)
  | Greater (left right : Expr) (comment : Option String)
  | RandInclusive (a b : Expr) (comment : Option String)
  | RangeInclusive (start stop : Expr) (comment : Option String)
  | MakeList (values : List Expr) (comment : Option String)
  | Listcat (lists : List Expr) (comment : Option String)
  | Listlen (value : Expr) (comment : Option String)
  | ListSlice (value : Expr) (sliceFrom sliceTo : Option Expr) (comment : Option String)
  | ListFind (list value : Expr) (comment : Option String)
  | ListIndex (list index : Expr) (comment : Option String)
  | ListRandIndex (list : Expr) (comment : Option String)
  | ListLastIndex (list : Expr) (comment : Option String)
  | Strcat (values : List Expr) (comment : Option String)
  | Strlen (value : Expr) (comment : Option String)
  | UnicodeToChar (value : Expr) (comment : Option String)
  | CharToUnicode (value : Expr) (comment : Option String)
  | Not (value : Expr) (comment : Option String)
  | Neg (value : Expr) (comment : Option String)
  | Abs (value : Expr) (comment : Option String)
  | Sqrt (value : Expr) (comment : Option String)
  | Floor (value : Expr) (comment : Option String)
  | Ceil (value : Expr) (comment : Option String)
  | Round (value : Expr) (comment : Option String)
  | Sin (value : Expr) (comment : Option String)
  | Cos (value : Expr) (comment : Option String)
  | Tan (value : Expr) (comment : Option String)
  | Asin (value : Expr) (comment : Option String)
  | Acos (value : Expr) (comment : Option String)
  | Atan (value : Expr) (comment : Option String)

/-- Embeds `Stmt` (src/ast.rs line 231). -/
inductive Stmt where
  | Assign (vars : List VariableRef) (value : Expr) (comment : Option String)
  | AddAssign (var : VariableRef) (value : Expr) (comment : Option String)
  | Warp (stmts : List Stmt) (comment : Option String)
  | InfLoop (stmts : List Stmt) (comment : Option String)
  | ForeachLoop (var : VariableRef) (items : Expr) (stmts : List Stmt) (comment : Option String)
  | ForLoop (var : VariableRef) (first last : Expr) (stmts : List Stmt) (comment : Option String)
  | UntilLoop (condition : Expr) (stmts : List Stmt) (comment : Option String)
  | Repeat (times : Expr) (stmts : List Stmt) (comment : Option String)
  | If (condition : Expr) (then_ : List Stmt) (comment : Option String)
  | IfElse (condition : Expr) (then_ otherwise : List Stmt) (comment : Option String)
  | Push (list value : Expr) (comment : Option String)
  | InsertAt (list value index : Expr) (comment : Option String)
  | InsertAtRand (list value : Expr) (comment : Option String)
  | Pop (list : Expr) (comment : Option String)
  | RemoveAt (list index : Expr) (comment : Option String)
  | RemoveAll (list : Expr) (comment : Option String)
  | IndexAssign (list value index : Expr) (comment : Option String)
  | RandIndexAssign (list value : Expr) (comment : Option String)
  | LastIndexAssign (list value : Expr) (comment : Option String)
  | Return (value : Expr) (comment : Option String)
  | Sleep (seconds : Expr) (comment : Option String)

/-- Embeds `Script` (src/ast.rs line 219). -/
structure Script where
  hat : Option Hat
  stmts : List Stmt

/-- Embeds `Sprite` (src/ast.rs line 188). -/
structure Sprite where
  name : String
  fields : List VariableDef
  scripts : List Script

/-- Embeds `Role` (src/ast.rs line 180). -/
structure Role where
  name : String
  notes : String
  globals : List VariableDef
  sprites : List Sprite

/-- Construction-time configuration: the pluggable name transformer of
`Parser` (src/ast.rs line 941), plus the JSON collaborator used for atomic
list literals.  `atomicList` models `serde_json::from_str` on the bracketed
text followed by `Value::try_from` (src/ast.rs lines 649-652, 280-299): an
error result carries the `InvalidJson` reason string. -/
structure Config where
  transformer : Transformer
  atomicList : String → Except String Value

/-- The read-only decoding context threaded through `ScriptInfo`
(src/ast.rs line 430): the role's name and global table, the sprite's name
and field table, and the parser configuration.  The mutable `locals` table is
passed separately, mirroring `&mut self`. -/
structure Ctx where
  cfg : Config
  roleName : String
  spriteName : String
  globals : SymbolTable
  fields : SymbolTable

/-- Models the external float parsing used for `l` literal nodes
(`expr.text.parse::<f64>()`, src/ast.rs line 639), restricted to plain
decimal forms (optional sign, digits, at most one decimal point, at least one
digit).  Scientific notation and non-finite spellings are not modelled; the
parsed number is represented exactly as a rational. -/
def parseF64 (s : String) : Option ℚ :=
  let body : List Char :=
    match s.data with
    | '-' :: rest => rest
    | '+' :: rest => rest
    | l => l
  let neg : Bool :=
    match s.data with
    | '-' :: _ => true
    | _ => false
  if (body.all fun c => c.isDigit || c == '.') = false then none
  else if 2 ≤ (body.filter (fun c => c == '.')).length then none
  else
    let ip := body.takeWhile (fun c => c != '.')
    let fp := (body.dropWhile (fun c => c != '.')).drop 1
    if ip.isEmpty && fp.isEmpty then none
    else
      let digitsToNat : List Char → Nat :=
        fun l => l.foldl (fun a c => a * 10 + (c.toNat - '0'.toNat)) 0
      let v : ℚ := (digitsToNat ip : ℚ) + (digitsToNat fp : ℚ) / ((10 : ℚ) ^ fp.length)
      some (if neg then -v else v)

/-- Embeds the `check_children_get_comment!` macro (src/ast.rs line 382),
taking the node's children directly: an arity error when fewer than `req`
children are present, otherwise the optional trailing comment child at index
`req` with newline-normalized text. -/
def checkChildrenGetComment (role sprite s : String) (req : Nat)
    (children : List Xml) : Except Error (Option String) :=
  if children.length < req then
    .error (.InvalidProject (.BlockChildCount role sprite s req children.length))
  else
    .ok (match children[req]? with
      | some c => if c.name = "comment" then some (cleanNewlines c.text) else none
      | none => none)

/-- Embeds `ScriptInfo::reference_var` (src/ast.rs line 628): scopes are
consulted in the order locals, fields, globals; a miss everywhere is an
`UndefinedVariable` error. -/
def referenceVar (ctx : Ctx) (locals : SymbolTable) (name : String) :
    Except Error VariableRef :=
  match locals.get name with
  | some d => .ok (d.refAt .Local)
  | none =>
    match ctx.fields.get name with
    | some d => .ok (d.refAt .Field)
    | none =>
      match ctx.globals.get name with
      | some d => .ok (d.refAt .Global)
      | none => .error (.UndefinedVariable ctx.roleName ctx.spriteName name)

/-- Embeds the `define_local_and_ref!` macro (src/ast.rs line 482): define
the name in the locals table (an `Ok` result, including replacement of an
earlier binding, is accepted), then look it up and return a `Local`
reference.  The `.unwrap()` on line 490 is modelled by `Error.Panic`. -/
def defineLocalAndRef (ctx : Ctx) (locals : SymbolTable) (name : String)
    (value : Value) : Except Error (VariableRef × SymbolTable) :=
  match SymbolTable.define ctx.cfg.transformer locals name value with
  | .error (.NameTransformError n) =>
    .error (.NameTransformError n (some ctx.roleName) (some ctx.spriteName))
  | .error (.ConflictingTrans trans_name names) =>
    .error (.LocalsWithSameTransName ctx.roleName ctx.spriteName trans_name names)
  | .error .Panic => .error .Panic
  | .ok (_, locals') =>
    match locals'.get name with
    | some d => .ok (d.refAt .Local, locals')
    | none => .error .Panic

/-- Embeds the variable-declaration loop of the `doDeclareVariables` arm
(src/ast.rs lines 500-503): each listed name is defined as a fresh local
initialized to numeric zero, and its reference collected. -/
def declareVars (ctx : Ctx) (locals : SymbolTable) :
    List Xml → Except Error (List VariableRef × SymbolTable)
  | [] => .ok ([], locals)
  | v :: rest => do
    let (r, l1) ← defineLocalAndRef ctx locals v.text (.Number 0)
    let (rs, l2) ← declareVars ctx l1 rest
    .ok (r :: rs, l2)

/-- Embeds `ScriptInfo::parse_hat` (src/ast.rs line 456).  A node with no
`s` attribute is a `BlockWithoutType` error; `receiveGo` and `receiveKey`
yield hats; everything else yields `none` (an ordinary statement). -/
def parseHat (ctx : Ctx) (stmt : Xml) : Except Error (Option Hat) :=
  match findAttr stmt.attrs "s" with
  | none => .error (.InvalidProject (.BlockWithoutType ctx.roleName ctx.spriteName))
  | some sv =>
    match sv.value with
    | "receiveGo" => do
      let comment ← checkChildrenGetComment ctx.roleName ctx.spriteName "receiveGo" 0 stmt.children
      .ok (some (.OnFlag comment))
    | "receiveKey" => do
      let comment ← checkChildrenGetComment ctx.roleName ctx.spriteName "receiveKey" 1 stmt.children
      match stmt.children with
      | c0 :: _ =>
        match c0.get ["option"] with
        | none => .error (.InvalidProject (.BlockMissingOption ctx.roleName ctx.spriteName "receiveKey"))
        | some k =>
          if k.children.length ≠ 0 then
            .error (.BlockOptionNotConst ctx.roleName ctx.spriteName "receiveKey")
          else if k.text = "" then
            .error (.BlockOptionNotSelected ctx.roleName ctx.spriteName "receiveKey")
          else
            .ok (some (.OnKey k.text comment))
      | [] => .error .Panic
    | _ => .ok none

/-- The binary-operator dispatch rows of `ScriptInfo::parse_expr`
(src/ast.rs lines 678-694 and 706): block type tag to two-operand
constructor.  For `reportListIndex` the macro call is
`Expr::ListFind : value, list`, so the first child is the value and the
second the list. -/
def binCtor (s : String) : Option (Expr → Expr → Option String → Expr) :=
  match s with
  | "reportSum" => some .Add
  | "reportDifference" => some .Sub
  | "reportProduct" => some .Mul
  | "reportQuotient" => some .Div
  | "reportModulus" => some .Mod
  | "reportPower" => some .Pow
  | "reportAnd" => some .And
  | "reportOr" => some .Or
  | "reportIsIdentical" => some .RefEq
  | "reportEquals" => some .Eq
  | "reportLessThan" => some .Less
  | "reportGreaterThan" => some .Greater
  | "reportRandom" => some .RandInclusive
  | "reportNumbers" => some .RangeInclusive
  | "reportListIndex" => some (fun value list c => .ListFind list value c)
  | _ => none

/-- The unary-operator dispatch rows of `ScriptInfo::parse_expr`
(src/ast.rs lines 696-699, 730-734): `reportCDR` desugars to a `ListSlice`
whose lower bound is the constant `2.0` and whose upper bound is absent. -/
def unCtor (s : String) : Option (Expr → Option String → Expr) :=
  match s with
  | "reportNot" => some .Not
  | "reportRound" => some .Round
  | "reportListLength" => some .Listlen
  | "reportStringSize" => some .Strlen
  | "reportUnicodeAsLetter" => some .UnicodeToChar
  | "reportUnicode" => some .CharToUnicode
  | "reportCDR" => some (fun v c => .ListSlice v (some (.Value (.Number 2))) none c)
  | _ => none

/-- The variadic dispatch rows of `ScriptInfo::parse_expr`
(src/ast.rs lines 742-744): the single child is a container whose children
are the operand expressions. -/
def variadicCtor (s : String) : Option (List Expr → Option String → Expr) :=
  match s with
  | "reportJoinWords" => some .Strcat
  | "reportConcatenatedLists" => some .Listcat
  | "reportNewList" => some .MakeList
  | _ => none

mutual

/-- Embeds `ScriptInfo::parse_expr` (src/ast.rs line 637).  The three
shared shapes (binary, unary, variadic) are factored through the
`binCtor`/`unCtor`/`variadicCtor` tables, mirroring the three Rust macros;
the remaining arms are individual.  Short-children fallthrough arms after a
passed arity check model the Rust out-of-bounds indexing panic and are
unreachable. -/
def parseExpr (ctx : Ctx) (locals : SymbolTable) : Xml → Except Error Expr
  | .mk nm tx ats cs =>
    match nm with
    | "l" =>
      match parseF64 tx with
      | some v => .ok (.Value (.Number v))
      | none => .ok (.Value (.String tx))
    | "bool" =>
      match tx with
      | "true" => .ok (.Value (.Bool true))
      | "false" => .ok (.Value (.Bool false))
      | x => .error (.InvalidProject (.BoolUnknownValue ctx.roleName ctx.spriteName x))
    | "list" =>
      if (match findAttr ats "struct" with
          | some v => v.value == "atomic"
          | none => false) then
        match ctx.cfg.atomicList tx with
        | .error reason => .error (.InvalidProject (.InvalidJson reason))
        | .ok v => .ok (.Value v)
      else do
        let values ← parseListItems ctx locals cs
        .ok (.Value (.List values))
    | "block" =>
      match findAttr ats "var" with
      | some var => do
        let comment ← checkChildrenGetComment ctx.roleName ctx.spriteName "var" 0 cs
        let v ← referenceVar ctx locals var.value
        .ok (.Variable v comment)
      | none =>
        match findAttr ats "s" with
        | none => .error (.InvalidProject (.BlockWithoutType ctx.roleName ctx.spriteName))
        | some sv =>
          match binCtor sv.value with
          | some mk => do
            let comment ← checkChildrenGetComment ctx.roleName ctx.spriteName sv.value 2 cs
            match cs with
            | c0 :: c1 :: _ => do
              let left ← parseExpr ctx locals c0
              let right ← parseExpr ctx locals c1
              .ok (mk left right comment)
            | _ => .error .Panic
          | none =>
          match unCtor sv.value with
          | some mk => do
            let comment ← checkChildrenGetComment ctx.roleName ctx.spriteName sv.value 1 cs
            match cs with
            | c0 :: _ => do
              let value ← parseExpr ctx locals c0
              .ok (mk value comment)
            | _ => .error .Panic
          | none =>
          match variadicCtor sv.value with
          | some mk => do
            let comment ← checkChildrenGetComment ctx.roleName ctx.spriteName sv.value 1 cs
            match cs with
            | Xml.mk _ _ _ gcs :: _ => do
              let values ← parseExprList ctx locals gcs
              .ok (mk values comment)
            | _ => .error .Panic
          | none =>
          match sv.value with
          | "reportListIsEmpty" => do
            let comment ← checkChildrenGetComment ctx.roleName ctx.spriteName "reportListIsEmpty" 1 cs
            match cs with
            | c0 :: _ => do
              let value ← parseExpr ctx locals c0
              .ok (.Greater (.Listlen value none) (.Value (.Number 0)) comment)
            | _ => .error .Panic
          | "reportListContainsItem" => do
            let comment ← checkChildrenGetComment ctx.roleName ctx.spriteName "reportListContainsItem" 2 cs
            match cs with
            | c0 :: c1 :: _ => do
              let value ← parseExpr ctx locals c0
              let list ← parseExpr ctx locals c1
              .ok (.Greater (.ListFind list value none) (.Value (.Number 0)) comment)
            | _ => .error .Panic
          | "reportListItem" => do
            let comment ← checkChildrenGetComment ctx.roleName ctx.spriteName "reportListItem" 2 cs
            match cs with
            | c0 :: c1 :: _ => do
              let list ← parseExpr ctx locals c1
              match c0.get ["option"] with
              | some opt =>
                match opt.text with
                | "last" => .ok (.ListLastIndex list comment)
                | "any" => .ok (.ListRandIndex list comment)
                | "" => .error (.BlockOptionNotSelected ctx.roleName ctx.spriteName "reportListItem")
                | x => .error (.InvalidProject (.BlockOptionUnknown ctx.roleName ctx.spriteName "reportListItem" x))
              | none => do
                let index ← parseExpr ctx locals c0
                .ok (.ListIndex list index comment)
            | _ => .error .Panic
          | "reportCONS" => do
            let comment ← checkChildrenGetComment ctx.roleName ctx.spriteName "reportCONS" 2 cs
            match cs with
            | c0 :: _ :: _ => do
              let val ← parseExpr ctx locals c0
              let list ← parseExpr ctx locals c0
              .ok (.Listcat [val, list] comment)
            | _ => .error .Panic
          | "reportBoolean" =>
            match (Xml.mk nm tx ats cs).get ["l", "bool"] with
            | some v =>
              if v.text = "true" then .ok (.Value (.Bool true))
              else if v.text = "false" then .ok (.Value (.Bool false))
              else .error (.InvalidProject (.InvalidBoolLiteral ctx.roleName ctx.spriteName))
            | none => .error (.InvalidProject (.InvalidBoolLiteral ctx.roleName ctx.spriteName))
          | "reportMonadic" => do
            let comment ← checkChildrenGetComment ctx.roleName ctx.spriteName "reportMonadic" 2 cs
            match cs with
            | c0 :: c1 :: _ =>
              match c0.get ["option"] with
              | none => .error (.InvalidProject (.BlockMissingOption ctx.roleName ctx.spriteName "reportMonadic"))
              | some f =>
                if f.children.length ≠ 0 then
                  .error (.BlockOptionNotConst ctx.roleName ctx.spriteName "reportMonadic")
                else do
                  let value ← parseExpr ctx locals c1
                  match f.text with
                  | "id" => .ok value
                  | "neg" => .ok (.Neg value comment)
                  | "abs" => .ok (.Abs value comment)
                  | "sqrt" => .ok (.Sqrt value comment)
                  | "floor" => .ok (.Floor value comment)
                  | "ceiling" => .ok (.Ceil value comment)
                  | "sin" => .ok (.Sin value comment)
                  | "cos" => .ok (.Cos value comment)
                  | "tan" => .ok (.Tan value comment)
                  | "asin" => .ok (.Asin value comment)
                  | "acos" => .ok (.Acos value comment)
                  | "atan" => .ok (.Atan value comment)
                  | "ln" => .ok (.Log value (.Value (.Constant .E)) comment)
                  | "lg" => .ok (.Log value (.Value (.Number 2)) comment)
                  | "log" => .ok (.Log value (.Value (.Number 10)) comment)
                  | "e^" => .ok (.Pow (.Value (.Constant .E)) value comment)
                  | "2^" => .ok (.Pow (.Value (.Number 2)) value comment)
                  | "10^" => .ok (.Pow (.Value (.Number 10)) value comment)
                  | "" => .error (.BlockOptionNotSelected ctx.roleName ctx.spriteName "reportMonadic")
                  | x => .error (.InvalidProject (.BlockOptionUnknown ctx.roleName ctx.spriteName "reportMonadic" x))
            | _ => .error .Panic
          | "reportIfElse" => do
            let comment ← checkChildrenGetComment ctx.roleName ctx.spriteName "reportIfElse" 3 cs
            match cs with
            | c0 :: c1 :: c2 :: _ => do
              let condition ← parseExpr ctx locals c0
              let then_ ← parseExpr ctx locals c1
              let otherwise ← parseExpr ctx locals c2
              .ok (.Conditional condition then_ otherwise comment)
            | _ => .error .Panic
          | x => .error (.UnknownBlockType ctx.roleName ctx.spriteName x)
    | x => .error (.UnknownBlockType ctx.roleName ctx.spriteName x)
termination_by x => sizeOf x

/-- Embeds the non-atomic list-literal loop of `parse_expr`
(src/ast.rs lines 653-664): each item contributes its first child, which
must itself decode to a literal `Value`. -/
def parseListItems (ctx : Ctx) (locals : SymbolTable) :
    List Xml → Except Error (List Value)
  | [] => .ok []
  | Xml.mk _ _ _ [] :: _ =>
    .error (.InvalidProject (.ListItemNoValue ctx.roleName ctx.spriteName))
  | Xml.mk _ _ _ (x :: _) :: rest => do
    match ← parseExpr ctx locals x with
    | .Value v => do
      let vs ← parseListItems ctx locals rest
      .ok (v :: vs)
    | _ => .error (.InvalidProject (.ValueNotEvaluated ctx.roleName (some ctx.spriteName)))
termination_by l => sizeOf l

/-- Embeds the operand loop of the `variadic_op!` macro
(src/ast.rs lines 419-422). -/
def parseExprList (ctx : Ctx) (locals : SymbolTable) :
    List Xml → Except Error (List Expr)
  | [] => .ok []
  | x :: rest => do
    let e ← parseExpr ctx locals x
    let es ← parseExprList ctx locals rest
    .ok (e :: es)
termination_by l => sizeOf l

end

mutual

/-- Embeds `ScriptInfo::parse` (src/ast.rs line 439): an empty body is an
empty script; otherwise the first child is offered to `parse_hat`, and the
remaining (or all) children are parsed as statements, threading the shared
locals table. -/
def parseScript (ctx : Ctx) (locals : SymbolTable) : Xml → Except Error (Script × SymbolTable)
  | .mk _ _ _ [] => .ok (⟨none, []⟩, locals)
  | .mk _ _ _ (c0 :: rest) => do
    match ← parseHat ctx c0 with
    | none => do
      let (stmts, l1) ← parseStmts ctx locals (c0 :: rest)
      .ok (⟨none, stmts⟩, l1)
    | some hat => do
      let (stmts, l1) ← parseStmts ctx locals rest
      .ok (⟨some hat, stmts⟩, l1)
termination_by x => sizeOf x

/-- Embeds the statement loop of `ScriptInfo::parse`
(src/ast.rs lines 447-453): every node must be a `block`. -/
def parseStmts (ctx : Ctx) (locals : SymbolTable) :
    List Xml → Except Error (List Stmt × SymbolTable)
  | [] => .ok ([], locals)
  | x :: rest =>
    if x.name = "block" then do
      let (s, l1) ← parseBlock ctx locals x
      let (ss, l2) ← parseStmts ctx l1 rest
      .ok (s :: ss, l2)
    else
      .error (.InvalidProject (.UnknownBlockMetaType ctx.roleName ctx.spriteName x.name))
termination_by l => sizeOf l

/-- Embeds `ScriptInfo::parse_block` (src/ast.rs line 481).  Note the
`doFor`/`doForEach` arms: the loop body is parsed BEFORE the induction
variable is defined, exactly as in the source (lines 525-529 and 538-541).
Short-children fallthrough arms after a passed arity check model the Rust
out-of-bounds indexing panic and are unreachable; the `unreachable!` arms of
the shared `doSetVar`/`doChangeVar` and `doRepeat`/`doUntil`/`doIf` matches
are modelled the same way. -/
def parseBlock (ctx : Ctx) (locals : SymbolTable) : Xml → Except Error (Stmt × SymbolTable)
  | .mk _ _ ats cs =>
    match findAttr ats "s" with
    | none => .error (.InvalidProject (.BlockWithoutType ctx.roleName ctx.spriteName))
    | some sv =>
      match sv.value with
      | "doDeclareVariables" => do
        let comment ← checkChildrenGetComment ctx.roleName ctx.spriteName "doDeclareVariables" 1 cs
        match cs with
        | c0 :: _ => do
          let (vars, l1) ← declareVars ctx locals c0.children
          .ok (.Assign vars (.Value (.Number 0)) comment, l1)
        | _ => .error .Panic
      | "doSetVar" => do
        let comment ← checkChildrenGetComment ctx.roleName ctx.spriteName "doSetVar" 2 cs
        match cs with
        | c0 :: c1 :: _ =>
          match c0.name with
          | "l" => do
            let var ← referenceVar ctx locals c0.text
            let value ← parseExpr ctx locals c1
            .ok (.Assign [var] value comment, locals)
          | _ => .error (.DerefAssignment ctx.roleName ctx.spriteName)
        | _ => .error .Panic
      | "doChangeVar" => do
        let comment ← checkChildrenGetComment ctx.roleName ctx.spriteName "doChangeVar" 2 cs
        match cs with
        | c0 :: c1 :: _ =>
          match c0.name with
          | "l" => do
            let var ← referenceVar ctx locals c0.text
            let value ← parseExpr ctx locals c1
            .ok (.AddAssign var value comment, locals)
          | _ => .error (.DerefAssignment ctx.roleName ctx.spriteName)
        | _ => .error .Panic
      | "doFor" => do
        let comment ← checkChildrenGetComment ctx.roleName ctx.spriteName "doFor" 4 cs
        match cs with
        | c0 :: c1 :: c2 :: c3 :: _ =>
          match c0.name with
          | "l" => do
            let first ← parseExpr ctx locals c1
            let last ← parseExpr ctx locals c2
            let (body, l1) ← parseScript ctx locals c3
            let (var, l2) ← defineLocalAndRef ctx l1 c0.text (.Number 0)
            .ok (.ForLoop var first last body.stmts comment, l2)
          | _ => .error (.InvalidProject (.NonConstantUpvar ctx.roleName ctx.spriteName "doFor"))
        | _ => .error .Panic
      | "doForEach" => do
        let comment ← checkChildrenGetComment ctx.roleName ctx.spriteName "doForEach" 3 cs
        match cs with
        | c0 :: c1 :: c2 :: _ =>
          match c0.name with
          | "l" => do
            let items ← parseExpr ctx locals c1
            let (body, l1) ← parseScript ctx locals c2
            let (var, l2) ← defineLocalAndRef ctx l1 c0.text (.Number 0)
            .ok (.ForeachLoop var items body.stmts comment, l2)
          | _ => .error (.InvalidProject (.NonConstantUpvar ctx.roleName ctx.spriteName "doForEach"))
        | _ => .error .Panic
      | "doRepeat" => do
        let comment ← checkChildrenGetComment ctx.roleName ctx.spriteName "doRepeat" 2 cs
        match cs with
        | c0 :: c1 :: _ => do
          let times ← parseExpr ctx locals c0
          let (body, l1) ← parseScript ctx locals c1
          .ok (.Repeat times body.stmts comment, l1)
        | _ => .error .Panic
      | "doUntil" => do
        let comment ← checkChildrenGetComment ctx.roleName ctx.spriteName "doUntil" 2 cs
        match cs with
        | c0 :: c1 :: _ => do
          let condition ← parseExpr ctx locals c0
          let (body, l1) ← parseScript ctx locals c1
          .ok (.UntilLoop condition body.stmts comment, l1)
        | _ => .error .Panic
      | "doIf" => do
        let comment ← checkChildrenGetComment ctx.roleName ctx.spriteName "doIf" 2 cs
        match cs with
        | c0 :: c1 :: _ => do
          let condition ← parseExpr ctx locals c0
          let (body, l1) ← parseScript ctx locals c1
          .ok (.If condition body.stmts comment, l1)
        | _ => .error .Panic
      | "doForever" => do
        let comment ← checkChildrenGetComment ctx.roleName ctx.spriteName "doForever" 1 cs
        match cs with
        | c0 :: _ => do
          let (body, l1) ← parseScript ctx locals c0
          .ok (.InfLoop body.stmts comment, l1)
        | _ => .error .Panic
      | "doIfElse" => do
        let comment ← checkChildrenGetComment ctx.roleName ctx.spriteName "doIfElse" 3 cs
        match cs with
        | c0 :: c1 :: c2 :: _ => do
          let condition ← parseExpr ctx locals c0
          let (then_, l1) ← parseScript ctx locals c1
          let (otherwise, l2) ← parseScript ctx l1 c2
          .ok (.IfElse condition then_.stmts otherwise.stmts comment, l2)
        | _ => .error .Panic
      | "doWarp" => do
        let comment ← checkChildrenGetComment ctx.roleName ctx.spriteName "doWarp" 1 cs
        match cs with
        | c0 :: _ => do
          let (body, l1) ← parseScript ctx locals c0
          .ok (.Warp body.stmts comment, l1)
        | _ => .error .Panic
      | "doDeleteFromList" => do
        let comment ← checkChildrenGetComment ctx.roleName ctx.spriteName "doDeleteFromList" 2 cs
        match cs with
        | c0 :: c1 :: _ => do
          let list ← parseExpr ctx locals c1
          match c0.get ["option"] with
          | some opt =>
            match opt.text with
            | "last" => .ok (.Pop list comment, locals)
            | "all" => .ok (.RemoveAll list comment, locals)
            | "" => .error (.BlockOptionNotSelected ctx.roleName ctx.spriteName "doDeleteFromList")
            | x => .error (.InvalidProject (.BlockOptionUnknown ctx.roleName ctx.spriteName "doDeleteFromList" x))
          | none => do
            let index ← parseExpr ctx locals c0
            .ok (.RemoveAt list index comment, locals)
        | _ => .error .Panic
      | "doInsertInList" => do
        let comment ← checkChildrenGetComment ctx.roleName ctx.spriteName "doInsertInList" 3 cs
        match cs with
        | c0 :: c1 :: c2 :: _ => do
          let value ← parseExpr ctx locals c0
          let list ← parseExpr ctx locals c2
          match c1.get ["option"] with
          | some opt =>
            match opt.text with
            | "last" => .ok (.Push list value comment, locals)
            | "random" => .ok (.InsertAtRand list value comment, locals)
            | "any" => .ok (.InsertAtRand list value comment, locals)
            | "" => .error (.BlockOptionNotSelected ctx.roleName ctx.spriteName "doInsertInList")
            | x => .error (.InvalidProject (.BlockOptionUnknown ctx.roleName ctx.spriteName "doInsertInList" x))
          | none => do
            let index ← parseExpr ctx locals c0
            .ok (.InsertAt list value index comment, locals)
        | _ => .error .Panic
      | "doReplaceInList" => do
        let comment ← checkChildrenGetComment ctx.roleName ctx.spriteName "doReplaceInList" 3 cs
        match cs with
        | c0 :: c1 :: c2 :: _ => do
          let value ← parseExpr ctx locals c2
          let list ← parseExpr ctx locals c1
          match c0.get ["option"] with
          | some opt =>
            match opt.text with
            | "last" => .ok (.LastIndexAssign list value comment, locals)
            | "random" => .ok (.RandIndexAssign list value comment, locals)
            | "any" => .ok (.RandIndexAssign list value comment, locals)
            | "" => .error (.BlockOptionNotSelected ctx.roleName ctx.spriteName "doReplaceInList")
            | x => .error (.InvalidProject (.BlockOptionUnknown ctx.roleName ctx.spriteName "doReplaceInList" x))
          | none => do
            let index ← parseExpr ctx locals c0
            .ok (.IndexAssign list value index comment, locals)
        | _ => .error .Panic
      | "doAddToList" => do
        let comment ← checkChildrenGetComment ctx.roleName ctx.spriteName "doAddToList" 2 cs
        match cs with
        | c0 :: c1 :: _ => do
          let value ← parseExpr ctx locals c0
          let list ← parseExpr ctx locals c1
          .ok (.Push list value comment, locals)
        | _ => .error .Panic
      | "doReport" => do
        let comment ← checkChildrenGetComment ctx.roleName ctx.spriteName "doReport" 1 cs
        match cs with
        | c0 :: _ => do
          let value ← parseExpr ctx locals c0
          .ok (.Return value comment, locals)
        | _ => .error .Panic
      | "doWait" => do
        let comment ← checkChildrenGetComment ctx.roleName ctx.spriteName "doWait" 1 cs
        match cs with
        | c0 :: _ => do
          let seconds ← parseExpr ctx locals c0
          .ok (.Sleep seconds comment, locals)
        | _ => .error .Panic
      | x => .error (.UnknownBlockType ctx.roleName ctx.spriteName x)
termination_by x => sizeOf x

end

/-- Models `str::starts_with` (used by the reporter-stub filter on
src/ast.rs line 853) as a prefix test over the character lists. -/
def strStartsWith (s p : String) : Bool := List.isPrefixOf p.data s.data

/-- The script-filtering test of `SpriteInfo::parse` (src/ast.rs lines
848-857): a script body that is empty, or consists of a single block that
carries a `var` attribute (a bare variable reference) or whose type tag
begins with `report` (a reporter stub), is skipped. -/
def scriptIsStub (x : Xml) : Bool :=
  match x.children with
  | [] => true
  | [stmt] =>
    (stmt.attr "var").isSome ||
      (match stmt.attr "s" with
       | some a => strStartsWith a.value "report"
       | none => false)
  | _ => false

/-- Embeds the script loop of `SpriteInfo::parse` (src/ast.rs lines
846-859): stub scripts are dropped, every other script is parsed with a
fresh `ScriptInfo` (fresh empty locals table). -/
def parseScripts (ctx : Ctx) : List Xml → Except Error (List Script)
  | [] => .ok []
  | x :: rest =>
    if scriptIsStub x then parseScripts ctx rest
    else do
      let (script, _) ← parseScript ctx SymbolTable.empty x
      let more ← parseScripts ctx rest
      .ok (script :: more)

/-- Embeds the field-collection loop of `SpriteInfo::parse` (src/ast.rs
lines 819-833); the caller filters to children named `variable` and supplies
the dummy decoding context (empty fields and locals). -/
def collectFieldDefs (ctx : Ctx) : List Xml → Except Error (List (String × Value))
  | [] => .ok []
  | d :: rest =>
    match findAttr d.attrs "name" with
    | none => .error (.InvalidProject (.UnnamedField ctx.roleName ctx.spriteName))
    | some nm =>
      match d.children with
      | [] => .error (.InvalidProject (.FieldNoValue ctx.roleName ctx.spriteName nm.value))
      | x :: _ => do
        match ← parseExpr ctx SymbolTable.empty x with
        | .Value v => do
          let defs ← collectFieldDefs ctx rest
          .ok ((nm.value, v) :: defs)
        | _ => .error (.InvalidProject (.ValueNotEvaluated ctx.roleName (some ctx.spriteName)))

/-- Embeds the field-definition loop of `SpriteInfo::parse` (src/ast.rs
lines 835-842): duplicate original names and transformed-name conflicts are
hard errors. -/
def defineFields (tr : Transformer) (role sprite : String) :
    SymbolTable → List (String × Value) → Except Error SymbolTable
  | st, [] => .ok st
  | st, (n, v) :: rest =>
    match SymbolTable.define tr st n v with
    | .ok (none, st') => defineFields tr role sprite st' rest
    | .ok (some prev, _) => .error (.InvalidProject (.FieldsWithSameName role sprite prev.name))
    | .error (.NameTransformError n') => .error (.NameTransformError n' (some role) (some sprite))
    | .error (.ConflictingTrans t ns) => .error (.FieldsWithSameTransName role sprite t ns)
    | .error .Panic => .error .Panic

/-- Embeds `SpriteInfo::parse` (src/ast.rs line 815): build the field table
from the declared variables (initializers are decoded in a dummy context
with empty field and local tables), then parse the scripts. -/
def parseSprite (cfg : Config) (roleName : String) (globals : SymbolTable)
    (name : String) (sprite : Xml) : Except Error Sprite := do
  let fields ←
    match sprite.get ["variables"] with
    | none => Except.ok SymbolTable.empty
    | some vx => do
      let dummyCtx : Ctx := ⟨cfg, roleName, name, globals, SymbolTable.empty⟩
      let defs ← collectFieldDefs dummyCtx (vx.children.filter (fun v => v.name = "variable"))
      defineFields cfg.transformer roleName name SymbolTable.empty defs
  let ctx : Ctx := ⟨cfg, roleName, name, globals, fields⟩
  let scripts ←
    match sprite.get ["scripts"] with
    | none => Except.ok []
    | some sx => parseScripts ctx sx.children
  .ok ⟨name, fields.intoDefs, scripts⟩

/-- Embeds the global-collection loop of `RoleInfo::parse` (src/ast.rs
lines 895-909); `roleAttr` is the role's `name` attribute (used by the
structural errors), while the decoding context carries the `RoleInfo` name
and the dummy sprite name `global`. -/
def collectGlobalDefs (ctx : Ctx) (roleAttr : String) :
    List Xml → Except Error (List (String × Value))
  | [] => .ok []
  | d :: rest =>
    match findAttr d.attrs "name" with
    | none => .error (.InvalidProject (.UnnamedGlobal roleAttr))
    | some nm =>
      match d.children with
      | [] => .error (.InvalidProject (.GlobalNoValue roleAttr nm.value))
      | x :: _ => do
        match ← parseExpr ctx SymbolTable.empty x with
        | .Value v => do
          let defs ← collectGlobalDefs ctx roleAttr rest
          .ok ((nm.value, v) :: defs)
        | _ => .error (.InvalidProject (.ValueNotEvaluated roleAttr none))

/-- Embeds the global-definition loop of `RoleInfo::parse` (src/ast.rs
lines 911-918). -/
def defineGlobals (tr : Transformer) (selfName : String) :
    SymbolTable → List (String × Value) → Except Error SymbolTable
  | st, [] => .ok st
  | st, (n, v) :: rest =>
    match SymbolTable.define tr st n v with
    | .ok (none, st') => defineGlobals tr selfName st' rest
    | .ok (some prev, _) => .error (.InvalidProject (.GlobalsWithSameName selfName prev.name))
    | .error (.NameTransformError n') => .error (.NameTransformError n' (some selfName) none)
    | .error (.ConflictingTrans t ns) => .error (.GlobalsWithSameTransName selfName t ns)
    | .error .Panic => .error .Panic

/-- Embeds the sprite loop of `RoleInfo::parse` (src/ast.rs lines
921-930), over an explicit list of sprite nodes (the caller passes the
stage consed onto the declared sprites). -/
def parseSpritesList (cfg : Config) (roleAttr selfName : String)
    (globals : SymbolTable) : List Xml → Except Error (List Sprite)
  | [] => .ok []
  | sp :: rest =>
    match findAttr sp.attrs "name" with
    | none => .error (.InvalidProject (.UnnamedSprite roleAttr))
    | some nm => do
      let s ← parseSprite cfg selfName globals nm.value sp
      let ss ← parseSpritesList cfg roleAttr selfName globals rest
      .ok (s :: ss)

/-- Embeds the global-table construction of `RoleInfo::parse` (src/ast.rs
lines 891-919): absent `variables` child means an empty table; the decoding
context for the initializers is the dummy sprite named `global` with empty
global/field tables. -/
def roleGlobals (cfg : Config) (selfName roleAttr : String) (content : Xml) :
    Except Error SymbolTable :=
  match content.get ["variables"] with
  | none => .ok SymbolTable.empty
  | some gx => do
    let gctx : Ctx := ⟨cfg, selfName, "global", SymbolTable.empty, SymbolTable.empty⟩
    let defs ← collectGlobalDefs gctx roleAttr
      (gx.children.filter (fun v => v.name = "variable"))
    defineGlobals cfg.transformer selfName SymbolTable.empty defs

/-- Embeds the sprite-sequence construction of `RoleInfo::parse`
(src/ast.rs lines 921-930): only when the stage has a `sprites` child is the
sequence built, as the stage itself followed by the container's children
named `sprite`; otherwise it is empty (and the stage is not included). -/
def roleSprites (cfg : Config) (roleAttr selfName : String)
    (globals : SymbolTable) (stage : Xml) : Except Error (List Sprite) :=
  match stage.get ["sprites"] with
  | none => .ok []
  | some sx =>
    parseSpritesList cfg roleAttr selfName globals
      (stage :: sx.children.filter (fun c => c.name = "sprite"))

/-- Embeds `RoleInfo::parse` (src/ast.rs line 875).  The `assert_eq!` on
line 876 is modelled by `Error.Panic`.  `selfName` is the name the
`RoleInfo` was constructed with (in `Parser::parse` it coincides with the
`name` attribute). -/
def parseRole (cfg : Config) (selfName : String) (root : Xml) : Except Error Role :=
  if root.name ≠ "role" then .error .Panic
  else
    match findAttr root.attrs "name" with
    | none => .error (.InvalidProject .UnnamedRole)
    | some roleA =>
      match root.get ["project"] with
      | none => .error (.InvalidProject (.NoRoleContent roleA.value))
      | some content =>
        let notes := ((content.get ["notes"]).map Xml.text).getD ""
        match content.get ["stage"] with
        | none => .error (.InvalidProject (.NoStageDef roleA.value))
        | some stage => do
          let globals ← roleGlobals cfg selfName roleA.value content
          let sprites ← roleSprites cfg roleA.value selfName globals stage
          .ok ⟨roleA.value, notes, globals.intoDefs, sprites⟩

/-- A name transformer that sends every name to the same output `c`
(a legitimate instantiation of the pluggable transformer). -/
def constTransformer : Transformer := fun _ => some "c"

/-- Stand-in for the external JSON collaborator in concrete runs; atomic
list literals do not occur in any of them. -/
def noAtomic : String → Except String Value := fun _ => .error "external"

/-- Concrete configuration: the default (identity) transformer. -/
def cfg0 : Config := ⟨idTransformer, noAtomic⟩

/-- Concrete decoding context: role `R`, sprite `S`, empty tables. -/
def ctx0 : Ctx := ⟨cfg0, "R", "S", SymbolTable.empty, SymbolTable.empty⟩

/-- Boolean literal node `<bool>true</bool>`. -/
def boolTrueNode : Xml := .mk "bool" "true" [] []

/-- Boolean literal node `<bool>false</bool>`. -/
def boolFalseNode : Xml := .mk "bool" "false" [] []

/-- String literal node `<l>xs</l>` (non-numeric text). -/
def lxsNode : Xml := .mk "l" "xs" [] []

/-- Bare variable reference to `i`: `<block var="i"/>`. -/
def varRefI : Xml := .mk "block" "" [⟨"var", "i"⟩] []

/-- Statement `<block s="doWait"><block var="i"/></block>`. -/
def waitNode : Xml := .mk "block" "" [⟨"s", "doWait"⟩] [varRefI]

/-- Loop body script containing one statement that references `i`. -/
def forBody : Xml := .mk "script" "" [] [waitNode]

/-- For-loop block with literal induction variable `i`, literal bounds, and
a body referencing `i`. -/
def forNode : Xml :=
  .mk "block" "" [⟨"s", "doFor"⟩]
    [.mk "l" "i" [] [], .mk "l" "a" [] [], .mk "l" "b" [] [], forBody]

/-- Stage node with a name but no `sprites` child. -/
def cexStage : Xml := .mk "stage" "" [⟨"name", "Stage"⟩] []

/-- Role node whose stage has no `sprites` child. -/
def cexRoleXml : Xml := .mk "role" "" [⟨"name", "R"⟩] [.mk "project" "" [] [cexStage]]

/-- Stage node with a `sprites` container holding one declared sprite. -/
def wStage : Xml :=
  .mk "stage" "" [⟨"name", "Stage"⟩]
    [.mk "sprites" "" [] [.mk "sprite" "" [⟨"name", "S1"⟩] []]]

/-- Role node with a stage and one declared sprite. -/
def wRoleXml : Xml := .mk "role" "" [⟨"name", "R"⟩] [.mk "project" "" [] [wStage]]

/-- A `doDeleteFromList` block whose option node is computed (has a child)
yet carries the text `last`. -/
def c6cexNode : Xml :=
  .mk "block" "" [⟨"s", "doDeleteFromList"⟩]
    [.mk "lopt" "" [] [.mk "option" "last" [] [.mk "l" "x" [] []]], lxsNode]

/-- A `doDeleteFromList` block with a constant `last` option. -/
def c6wNodeCarrier : Xml := .mk "lopt" "" [] [.mk "option" "last" [] []]

/-- Comment node with text `hi`. -/
def commentNode : Xml := .mk "comment" "hi" [] []

/-- The statement of a reporter-stub script. -/
def stubStmt : Xml := .mk "block" "" [⟨"s", "reportSomething"⟩] []

/-- A script consisting of a single reporter-stub block. -/
def stubScript : Xml := .mk "script" "" [] [stubStmt]

/-- Statement `<block s="doWait"><bool>true</bool></block>`. -/
def waitBoolNode : Xml := .mk "block" "" [⟨"s", "doWait"⟩] [boolTrueNode]

/-- A non-stub script with a single ordinary statement. -/
def nonStubScript : Xml := .mk "script" "" [] [waitBoolNode]

/-- Concrete `reportListIsEmpty` node. -/
def c9EmptyNode : Xml := .mk "block" "" [⟨"s", "reportListIsEmpty"⟩] [boolTrueNode]

/-- Concrete `reportListContainsItem` node. -/
def c9ContainsNode : Xml :=
  .mk "block" "" [⟨"s", "reportListContainsItem"⟩] [boolTrueNode, boolFalseNode]

/-- Concrete `reportCDR` node. -/
def c9CdrNode : Xml := .mk "block" "" [⟨"s", "reportCDR"⟩] [boolTrueNode]

/-- Concrete `reportCONS` node whose SECOND child would fail to decode
(`<bool>` with unrecognized text). -/
def c10Node : Xml :=
  .mk "block" "" [⟨"s", "reportCONS"⟩] [boolTrueNode, .mk "bool" "bad" [] []]

/-- A local table binding `x` (with distinct trans name `xL`). -/
def localsX : SymbolTable := ⟨[("x", ⟨"x", "xL", .Number 0⟩)], [("x", "xL")]⟩

/-- A context whose field and global tables both bind `x` (trans names `xF`
and `xG`). -/
def ctxFG : Ctx :=
  ⟨cfg0, "R", "S", ⟨[("x", ⟨"x", "xG", .Number 0⟩)], [("x", "xG")]⟩,
    ⟨[("x", ⟨"x", "xF", .Number 0⟩)], [("x", "xF")]⟩⟩

set_option maxHeartbeats 4000000 in
/-- Unfolding lemma: the `l` (literal) arm of `parse_expr` — numeric text
becomes a number, anything else the literal string. -/
theorem parseExpr_l (ctx : Ctx) (locals : SymbolTable) (tx : String)
    (ats : List XmlAttr) (cs : List Xml) :
    parseExpr ctx locals (.mk "l" tx ats cs) =
      (match parseF64 tx with
       | some v => .ok (.Value (.Number v))
       | none => .ok (.Value (.String tx))) := by
  rw [parseExpr.eq_def]
  rfl

/-- Unfolding lemma: the bare-variable-reference arm of `parse_expr`. -/
theorem parseExpr_blockVar (ctx : Ctx) (locals : SymbolTable) (tx : String)
    (ats : List XmlAttr) (cs : List Xml) (a : XmlAttr)
    (h : findAttr ats "var" = some a) :
    parseExpr ctx locals (.mk "block" tx ats cs) =
      (do
        let comment ← checkChildrenGetComment ctx.roleName ctx.spriteName "var" 0 cs
        let v ← referenceVar ctx locals a.value
        Except.ok (.Variable v comment)) := by
  rw [parseExpr.eq_def]
  simp only [h]

/-- Evaluation: `<bool>true</bool>` decodes to the boolean value. -/
theorem parseExpr_boolTrue :
    parseExpr ctx0 SymbolTable.empty boolTrueNode = .ok (.Value (.Bool true)) := by
  rw [boolTrueNode, parseExpr.eq_def]
  rfl

/-- Evaluation: `<bool>false</bool>` decodes to the boolean value. -/
theorem parseExpr_boolFalse :
    parseExpr ctx0 SymbolTable.empty boolFalseNode = .ok (.Value (.Bool false)) := by
  rw [boolFalseNode, parseExpr.eq_def]
  rfl

/-- Evaluation: `<l>xs</l>` decodes to the string value `xs`. -/
theorem parseExpr_lxs :
    parseExpr ctx0 SymbolTable.empty lxsNode = .ok (.Value (.String "xs")) := by
  rw [lxsNode, parseExpr_l]
  rfl

/-- Evaluation: `<l>a</l>` decodes to the string value `a`. -/
theorem parseExpr_la :
    parseExpr ctx0 SymbolTable.empty (.mk "l" "a" [] []) = .ok (.Value (.String "a")) := by
  rw [parseExpr_l]
  rfl

/-- Evaluation: `<l>b</l>` decodes to the string value `b`. -/
theorem parseExpr_lb :
    parseExpr ctx0 SymbolTable.empty (.mk "l" "b" [] []) = .ok (.Value (.String "b")) := by
  rw [parseExpr_l]
  rfl

/-- Evaluation: with all three tables empty, the bare reference to `i` is an
undefined-variable error. -/
theorem parseExpr_varRefI :
    parseExpr ctx0 SymbolTable.empty varRefI = .error (.UndefinedVariable "R" "S" "i") := by
  rw [varRefI, parseExpr_blockVar ctx0 SymbolTable.empty "" [⟨"var", "i"⟩] [] ⟨"var", "i"⟩ rfl]
  rfl

set_option maxHeartbeats 8000000 in
/-- Unfolding lemma: the `doWait` arm of `parse_block`. -/
theorem parseBlock_doWait (ctx : Ctx) (locals : SymbolTable) (nm tx : String)
    (ats : List XmlAttr) (c0 : Xml) (rest : List Xml) (sv : XmlAttr)
    (hs : findAttr ats "s" = some sv) (hv : sv.value = "doWait") :
    parseBlock ctx locals (.mk nm tx ats (c0 :: rest)) =
      (do
        let comment ← checkChildrenGetComment ctx.roleName ctx.spriteName "doWait" 1 (c0 :: rest)
        let seconds ← parseExpr ctx locals c0
        Except.ok (.Sleep seconds comment, locals)) := by
  rw [parseBlock.eq_def]
  simp only [hs, hv, String.reduceEq]

/-- Unfolding lemma: the `doFor` arm of `parse_block` with a literal (`l`)
induction-variable child: the two bounds and then the BODY are parsed before
the induction variable is defined. -/
theorem parseBlock_doFor (ctx : Ctx) (locals : SymbolTable) (nm tx : String)
    (ats : List XmlAttr) (c0 c1 c2 c3 : Xml) (rest : List Xml) (sv : XmlAttr)
    (hs : findAttr ats "s" = some sv) (hv : sv.value = "doFor")
    (hn : c0.name = "l") :
    parseBlock ctx locals (.mk nm tx ats (c0 :: c1 :: c2 :: c3 :: rest)) =
      (do
        let comment ← checkChildrenGetComment ctx.roleName ctx.spriteName "doFor" 4
          (c0 :: c1 :: c2 :: c3 :: rest)
        let first ← parseExpr ctx locals c1
        let last ← parseExpr ctx locals c2
        let (body, l1) ← parseScript ctx locals c3
        let (var, l2) ← defineLocalAndRef ctx l1 c0.text (.Number 0)
        Except.ok (.ForLoop var first last body.stmts comment, l2)) := by
  rw [parseBlock.eq_def]
  simp only [hs, hv, hn, String.reduceEq]

/-- Evaluation: `parse_hat` on a `doWait` block yields no hat. -/
theorem parseHat_waitNode : parseHat ctx0 waitNode = .ok none := rfl

/-- Evaluation: the `doWait` statement wrapping the bare reference to `i`
propagates the undefined-variable error. -/
theorem parseBlock_waitNode :
    parseBlock ctx0 SymbolTable.empty waitNode = .error (.UndefinedVariable "R" "S" "i") := by
  rw [waitNode, parseBlock_doWait ctx0 SymbolTable.empty "block" "" [⟨"s", "doWait"⟩]
    varRefI [] ⟨"s", "doWait"⟩ rfl rfl]
  rw [parseExpr_varRefI]
  rfl

set_option maxHeartbeats 2000000 in
/-- Evaluation: the statement list `[waitNode]` propagates the
undefined-variable error. -/
theorem parseStmts_waitNode :
    parseStmts ctx0 SymbolTable.empty [waitNode] = .error (.UndefinedVariable "R" "S" "i") := by
  rw [parseStmts.eq_def]
  simp [show Xml.name waitNode = "block" from rfl, parseBlock_waitNode, Bind.bind, Except.bind]

set_option maxHeartbeats 2000000 in
/-- Evaluation: the loop body script referencing `i` fails with an
undefined-variable error when `i` is not yet bound. -/
theorem parseScript_forBody :
    parseScript ctx0 SymbolTable.empty forBody = .error (.UndefinedVariable "R" "S" "i") := by
  rw [forBody, parseScript.eq_def]
  simp [parseHat_waitNode, parseStmts_waitNode, Bind.bind, Except.bind]

/-- C1: FAILS on the code.  The claim says the induction variable of a
for-loop (or for-each loop) is defined as a new Local before the loop body
is parsed, so a body reference to it resolves as a Local with the loop's
trans name.  In the source (src/ast.rs lines 525-529) the body is parsed
BEFORE `define_local_and_ref!` runs, so with no other binding of `i` in
scope the body reference fails with `UndefinedVariable` and the whole loop
fails to decode.  This theorem evaluates the decoder on such a loop. -/
theorem c1_doFor_body_before_define :
    parseBlock ctx0 SymbolTable.empty forNode = .error (.UndefinedVariable "R" "S" "i") := by
  rw [forNode, parseBlock_doFor ctx0 SymbolTable.empty "block" "" [⟨"s", "doFor"⟩]
    (.mk "l" "i" [] []) (.mk "l" "a" [] []) (.mk "l" "b" [] []) forBody []
    ⟨"s", "doFor"⟩ rfl rfl rfl]
  rw [parseExpr_la, parseExpr_lb, parseScript_forBody]
  rfl

/-- C2: FAILS on the code.  With a transformer sending both `a` and `b` to
the same output `c`, defining `a` and then `b` should (per the claim and the
doc comment of `define`) fail with a `ConflictingTrans` error carrying `c`
and both names.  Because src/ast.rs line 160 inserts into `trans_to_orig`
keyed by the original name instead of the transformed name, the second
define succeeds and no collision is reported. -/
theorem c2_define_misses_trans_collision :
    SymbolTable.define constTransformer SymbolTable.empty "a" (.Number 0) =
      .ok (none, ⟨[("a", ⟨"a", "c", .Number 0⟩)], [("a", "c")]⟩) ∧
    SymbolTable.define constTransformer
        ⟨[("a", ⟨"a", "c", .Number 0⟩)], [("a", "c")]⟩ "b" (.Number 0) =
      .ok (none, ⟨[("a", ⟨"a", "c", .Number 0⟩), ("b", ⟨"b", "c", .Number 0⟩)],
        [("a", "c"), ("b", "c")]⟩) :=
  ⟨rfl, rfl⟩

/-- C3: FAILS on the code.  Redeclaring the same original name in a Local
scope should silently replace the binding (per the claim, the doc comment of
`define`, and the `redefining locals is fine` comment in
`define_local_and_ref!`).  Under the default identity transformer the second
define of `x` instead hits the mis-keyed collision index (src/ast.rs line
160) and fails with `LocalsWithSameTransName` whose two conflicting names
are both `x`. -/
theorem c3_local_redefinition_errors :
    defineLocalAndRef ctx0 SymbolTable.empty "x" (.Number 0) =
      .ok (⟨"x", "x", .Local⟩, ⟨[("x", ⟨"x", "x", .Number 0⟩)], [("x", "x")]⟩) ∧
    defineLocalAndRef ctx0 ⟨[("x", ⟨"x", "x", .Number 0⟩)], [("x", "x")]⟩ "x" (.Number 0) =
      .error (.LocalsWithSameTransName "R" "S" "x" ("x", "x")) :=
  ⟨rfl, rfl⟩

/-- C4: variable references resolve through the scopes in the fixed order
Local, Field, Global, returning a reference located at the first scope whose
table binds the original name; a miss in all three is an
`UndefinedVariable` error naming the unresolved identifier. -/
theorem c4_reference_var_precedence (ctx : Ctx) (locals : SymbolTable) (name : String) :
    (∀ d, locals.get name = some d →
      referenceVar ctx locals name = .ok (d.refAt .Local)) ∧
    (∀ d, locals.get name = none → ctx.fields.get name = some d →
      referenceVar ctx locals name = .ok (d.refAt .Field)) ∧
    (∀ d, locals.get name = none → ctx.fields.get name = none →
      ctx.globals.get name = some d →
      referenceVar ctx locals name = .ok (d.refAt .Global)) ∧
    (locals.get name = none → ctx.fields.get name = none →
      ctx.globals.get name = none →
      referenceVar ctx locals name =
        .error (.UndefinedVariable ctx.roleName ctx.spriteName name)) := by
  refine ⟨?_, ?_, ?_, ?_⟩
  · intro d h
    simp [referenceVar, h]
  · intro d h1 h2
    simp [referenceVar, h1, h2]
  · intro d h1 h2 h3
    simp [referenceVar, h1, h2, h3]
  · intro h1 h2 h3
    simp [referenceVar, h1, h2, h3]

/-- C4 witness: with `x` bound in all three tables the local binding wins,
and with `x` bound only in the field and global tables the field binding
wins. -/
theorem c4_witness :
    referenceVar ctxFG localsX "x" =
      .ok ((⟨"x", "xL", .Number 0⟩ : VariableDef).refAt .Local) ∧
    referenceVar ctxFG SymbolTable.empty "x" =
      .ok ((⟨"x", "xF", .Number 0⟩ : VariableDef).refAt .Field) :=
  ⟨(c4_reference_var_precedence ctxFG localsX "x").1 ⟨"x", "xL", .Number 0⟩ rfl,
   (c4_reference_var_precedence ctxFG SymbolTable.empty "x").2.1 ⟨"x", "xF", .Number 0⟩ rfl rfl⟩

/-- C5 counterexample: a role whose stage node has no `sprites` child
resolves successfully to a role with an EMPTY sprites sequence, so the
claimed first element (the resolved stage) does not exist even though the
role has a stage node. -/
theorem c5_counterexample :
    parseRole cfg0 "R" cexRoleXml = .ok ⟨"R", "", [], []⟩ := rfl

/-- C5 (amended): for every role whose stage node HAS a `sprites` child
container, successful role resolution produces a sprites sequence whose
first element is the resolved stage itself, followed by the resolution of
the container's children named `sprite` in document order. -/
theorem c5_stage_heads_sprites (cfg : Config) (selfName : String) (root : Xml)
    (r : Role) (roleA nmA : XmlAttr) (content stage sx : Xml)
    (h : parseRole cfg selfName root = .ok r)
    (hA : root.attr "name" = some roleA)
    (hc : root.get ["project"] = some content)
    (hs : content.get ["stage"] = some stage)
    (hx : stage.get ["sprites"] = some sx)
    (hn : stage.attr "name" = some nmA) :
    ∃ g s rest,
      roleGlobals cfg selfName roleA.value content = .ok g ∧
      parseSprite cfg selfName g nmA.value stage = .ok s ∧
      r.sprites = s :: rest ∧
      parseSpritesList cfg roleA.value selfName g
        (sx.children.filter (fun c => c.name = "sprite")) = .ok rest := by
  rw [Xml.attr] at hA hn
  rw [parseRole] at h
  split at h
  · exact absurd h (by simp)
  · simp only [hA, hc, hs] at h
    cases hG : roleGlobals cfg selfName roleA.value content with
    | error e => rw [hG] at h; exact absurd h (by simp [Bind.bind, Except.bind])
    | ok g =>
      rw [hG] at h
      simp only [Bind.bind, Except.bind] at h
      rw [roleSprites.eq_def] at h
      simp only [hx] at h
      cases hS0 : parseSpritesList cfg roleA.value selfName g
          (stage :: sx.children.filter (fun c => c.name = "sprite")) with
      | error e => rw [hS0] at h; exact absurd h (by simp [Bind.bind, Except.bind])
      | ok sprites =>
        rw [hS0] at h
        simp only [Bind.bind, Except.bind] at h
        simp only [parseSpritesList, hn] at hS0
        cases hPS : parseSprite cfg selfName g nmA.value stage with
        | error e => rw [hPS] at hS0; exact absurd hS0 (by simp [Bind.bind, Except.bind])
        | ok s =>
          rw [hPS] at hS0
          cases hRest : parseSpritesList cfg roleA.value selfName g
              (sx.children.filter (fun c => c.name = "sprite")) with
          | error e => rw [hRest] at hS0; exact absurd hS0 (by simp [Bind.bind, Except.bind])
          | ok rest =>
            rw [hRest] at hS0
            simp only [Bind.bind, Except.bind, Except.ok.injEq] at hS0
            refine ⟨g, s, rest, rfl, hPS, ?_, hRest⟩
            injection h with h'
            rw [← h', ← hS0]

/-- C5 witness: a concrete role whose stage contains one declared sprite —
the resolved sprites sequence is the resolved stage followed by the resolved
declared sprite. -/
theorem c5_witness :
    ∃ g s rest,
      roleGlobals cfg0 "R" "R" (Xml.mk "project" "" [] [wStage]) = .ok g ∧
      parseSprite cfg0 "R" g "Stage" wStage = .ok s ∧
      (Role.mk "R" "" [] [⟨"Stage", [], []⟩, ⟨"S1", [], []⟩]).sprites = s :: rest ∧
      parseSpritesList cfg0 "R" "R" g
        ((Xml.mk "sprites" "" [] [Xml.mk "sprite" "" [⟨"name", "S1"⟩] []]).children.filter
          (fun c => c.name = "sprite")) = .ok rest :=
  c5_stage_heads_sprites cfg0 "R" wRoleXml
    ⟨"R", "", [], [⟨"Stage", [], []⟩, ⟨"S1", [], []⟩]⟩
    ⟨"name", "R"⟩ ⟨"name", "Stage"⟩ (Xml.mk "project" "" [] [wStage]) wStage
    (Xml.mk "sprites" "" [] [Xml.mk "sprite" "" [⟨"name", "S1"⟩] []])
    rfl rfl rfl rfl rfl rfl

/-- C7: a node shape requiring `req` children fails with a
`BlockChildCount` error carrying the block type, the required count, and the
actual count when fewer children are present; otherwise the optional
trailing comment child at index `req` supplies the newline-normalized
comment text, and the comment is `none` in all other cases. -/
theorem c7_check_children (role sprite s : String) (req : Nat) (children : List Xml) :
    (children.length < req →
      checkChildrenGetComment role sprite s req children =
        .error (.InvalidProject (.BlockChildCount role sprite s req children.length))) ∧
    (req ≤ children.length →
      ((∀ c, children[req]? = some c → c.name = "comment" →
          checkChildrenGetComment role sprite s req children =
            .ok (some (cleanNewlines c.text))) ∧
       (∀ c, children[req]? = some c → ¬ c.name = "comment" →
          checkChildrenGetComment role sprite s req children = .ok none) ∧
       (children[req]? = none →
          checkChildrenGetComment role sprite s req children = .ok none))) := by
  constructor
  · intro h
    simp [checkChildrenGetComment, h]
  · intro h
    have h' : ¬ children.length < req := not_lt.mpr h
    refine ⟨?_, ?_, ?_⟩
    · intro c hc hcn
      simp [checkChildrenGetComment, h', hc, hcn]
    · intro c hc hcn
      simp [checkChildrenGetComment, h', hc, hcn]
    · intro hc
      simp [checkChildrenGetComment, h', hc]

/-- C7 witness: a `doWait` shape over zero children fails with the arity
error `needed 1, got 0`; over two children whose second is a comment node it
succeeds with the comment text attached. -/
theorem c7_witness :
    checkChildrenGetComment "R" "S" "doWait" 1 [] =
      .error (.InvalidProject (.BlockChildCount "R" "S" "doWait" 1 0)) ∧
    checkChildrenGetComment "R" "S" "doWait" 1 [boolTrueNode, commentNode] = .ok (some "hi") := by
  constructor
  · exact (c7_check_children "R" "S" "doWait" 1 []).1 (by decide)
  · exact (((c7_check_children "R" "S" "doWait" 1 [boolTrueNode, commentNode]).2
      (by decide)).1 commentNode rfl rfl).trans (by rfl)

/-- Evaluation: `parse_hat` on a `doWait` block yields no hat. -/
theorem parseHat_waitBool : parseHat ctx0 waitBoolNode = .ok none := rfl

/-- Evaluation: the `doWait` statement over a boolean literal decodes to a
`Sleep` statement. -/
theorem parseBlock_waitBool :
    parseBlock ctx0 SymbolTable.empty waitBoolNode =
      .ok (.Sleep (.Value (.Bool true)) none, SymbolTable.empty) := by
  rw [waitBoolNode, parseBlock_doWait ctx0 SymbolTable.empty "block" "" [⟨"s", "doWait"⟩]
    boolTrueNode [] ⟨"s", "doWait"⟩ rfl rfl]
  rw [parseExpr_boolTrue]
  rfl

/-- Evaluation: the singleton statement list over the `doWait` block. -/
theorem parseStmts_waitBool :
    parseStmts ctx0 SymbolTable.empty [waitBoolNode] =
      .ok ([.Sleep (.Value (.Bool true)) none], SymbolTable.empty) := by
  rw [parseStmts.eq_def]
  simp [show Xml.name waitBoolNode = "block" from rfl, parseBlock_waitBool, Bind.bind, Except.bind,
    parseStmts]

/-- Evaluation: the non-stub script decodes to one `Sleep` statement with no
hat. -/
theorem parseScript_nonStub :
    parseScript ctx0 SymbolTable.empty nonStubScript =
      .ok (⟨none, [.Sleep (.Value (.Bool true)) none]⟩, SymbolTable.empty) := by
  rw [nonStubScript, parseScript.eq_def]
  simp [parseHat_waitBool, parseStmts_waitBool, Bind.bind, Except.bind]

/-- C8: in the script loop of sprite resolution, a script whose entire body
is a single block that is a bare variable reference (`var` attribute) or a
reporter-style call (type tag starting with `report`) is silently dropped,
while every other script with a non-empty body is parsed (with a fresh empty
locals table) and included in order. -/
theorem c8_stub_scripts_filtered (ctx : Ctx) (x : Xml) (rest : List Xml) :
    (∀ stmt, x.children = [stmt] →
      ((stmt.attr "var").isSome = true ∨
        (∃ a, stmt.attr "s" = some a ∧ strStartsWith a.value "report" = true)) →
      parseScripts ctx (x :: rest) = parseScripts ctx rest) ∧
    (x.children ≠ [] →
      (∀ stmt, x.children = [stmt] →
        stmt.attr "var" = none ∧
        (∀ a, stmt.attr "s" = some a → strStartsWith a.value "report" = false)) →
      ∀ s l more, parseScript ctx SymbolTable.empty x = .ok (s, l) →
        parseScripts ctx rest = .ok more →
        parseScripts ctx (x :: rest) = .ok (s :: more)) := by
  constructor
  · intro stmt hch hdisj
    have hstub : scriptIsStub x = true := by
      rw [scriptIsStub.eq_def, hch]
      rcases hdisj with hv | ⟨a, ha, hr⟩
      · simp [hv]
      · simp [ha, hr]
    simp [parseScripts, hstub]
  · intro hne hsafe s l more hsc hmore
    have hstub : scriptIsStub x = false := by
      rcases hch2 : x.children with _ | ⟨stmt, _ | ⟨b, t⟩⟩
      · exact absurd hch2 hne
      · obtain ⟨hv, hs'⟩ := hsafe stmt hch2
        rw [scriptIsStub.eq_def, hch2]
        simp only [hv, Option.isSome_none, Bool.false_or]
        cases ha : stmt.attr "s" with
        | none => rfl
        | some a => simpa using hs' a ha
      · rw [scriptIsStub.eq_def, hch2]
    simp [parseScripts, hstub, hsc, hmore, Bind.bind, Except.bind]

/-- C8 witness: the reporter-stub script is dropped (empty output), while
the ordinary `doWait` script is parsed and included. -/
theorem c8_witness :
    parseScripts ctx0 [stubScript] = .ok [] ∧
    parseScripts ctx0 [nonStubScript] = .ok [⟨none, [.Sleep (.Value (.Bool true)) none]⟩] := by
  constructor
  · exact ((c8_stub_scripts_filtered ctx0 stubScript []).1 stubStmt rfl
      (Or.inr ⟨⟨"s", "reportSomething"⟩, rfl, rfl⟩)).trans rfl
  · refine (c8_stub_scripts_filtered ctx0 nonStubScript []).2 (by simp [nonStubScript, Xml.children])
      ?_ ⟨none, [.Sleep (.Value (.Bool true)) none]⟩ SymbolTable.empty []
      parseScript_nonStub rfl
    intro stmt h
    have hst : stmt = waitBoolNode := by
      have h' : [waitBoolNode] = [stmt] := h
      injection h' with h1 _
      exact h1.symm
    subst hst
    refine ⟨rfl, ?_⟩
    intro a ha
    have ha' : some (⟨"s", "doWait"⟩ : XmlAttr) = some a := ha
    injection ha' with h2
    rw [← h2]
    rfl

/-- Unfolding lemma: the `doDeleteFromList` arm of `parse_block`. -/
theorem parseBlock_doDelete (ctx : Ctx) (locals : SymbolTable) (nm tx : String)
    (ats : List XmlAttr) (c0 c1 : Xml) (rest : List Xml) (sv : XmlAttr)
    (hs : findAttr ats "s" = some sv) (hv : sv.value = "doDeleteFromList") :
    parseBlock ctx locals (.mk nm tx ats (c0 :: c1 :: rest)) =
      (do
        let comment ← checkChildrenGetComment ctx.roleName ctx.spriteName
          "doDeleteFromList" 2 (c0 :: c1 :: rest)
        let list ← parseExpr ctx locals c1
        match c0.get ["option"] with
        | some opt =>
          match opt.text with
          | "last" => Except.ok (.Pop list comment, locals)
          | "all" => Except.ok (.RemoveAll list comment, locals)
          | "" => Except.error (.BlockOptionNotSelected ctx.roleName ctx.spriteName "doDeleteFromList")
          | x => Except.error (.InvalidProject
              (.BlockOptionUnknown ctx.roleName ctx.spriteName "doDeleteFromList" x))
        | none => do
          let index ← parseExpr ctx locals c0
          Except.ok (.RemoveAt list index comment, locals)) := by
  rw [parseBlock.eq_def]
  simp only [hs, hv, String.reduceEq]

/-- C6 counterexample: a `doDeleteFromList` block whose option node is
COMPUTED (it has a child) but carries the text `last` decodes successfully
to `Pop` — there is no not-const check in this arm, refuting the claim's
"a non-constant (computed) option fails with a not-const error". -/
theorem c6_counterexample :
    parseBlock ctx0 SymbolTable.empty c6cexNode =
      .ok (.Pop (.Value (.String "xs")) none, SymbolTable.empty) := by
  rw [c6cexNode, parseBlock_doDelete ctx0 SymbolTable.empty "block" ""
    [⟨"s", "doDeleteFromList"⟩]
    (.mk "lopt" "" [] [.mk "option" "last" [] [.mk "l" "x" [] []]]) lxsNode []
    ⟨"s", "doDeleteFromList"⟩ rfl rfl]
  rw [parseExpr_lxs]
  rfl

/-- C6 (amended): for a `doDeleteFromList` block with at least two children,
option text `last` yields `Pop`, `all` yields `RemoveAll`, the empty option
text fails with the option-not-selected error (distinct from the
unknown-option error), any other option text fails with the unknown-option
error carrying that text, and an absent option child yields `RemoveAt` with
the decoded index expression.  The option node's constancy is NOT checked:
only its text matters. -/
theorem c6_delete_from_list_dispatch (ctx : Ctx) (locals : SymbolTable)
    (nm tx : String) (ats : List XmlAttr) (c0 c1 : Xml) (rest : List Xml)
    (sv : XmlAttr) (cmt : Option String) (lv : Expr)
    (hs : findAttr ats "s" = some sv) (hv : sv.value = "doDeleteFromList")
    (hcm : checkChildrenGetComment ctx.roleName ctx.spriteName
      "doDeleteFromList" 2 (c0 :: c1 :: rest) = .ok cmt)
    (hl : parseExpr ctx locals c1 = .ok lv) :
    (∀ opt, c0.get ["option"] = some opt →
      ((opt.text = "last" →
        parseBlock ctx locals (.mk nm tx ats (c0 :: c1 :: rest)) = .ok (.Pop lv cmt, locals)) ∧
       (opt.text = "all" →
        parseBlock ctx locals (.mk nm tx ats (c0 :: c1 :: rest)) = .ok (.RemoveAll lv cmt, locals)) ∧
       (opt.text = "" →
        parseBlock ctx locals (.mk nm tx ats (c0 :: c1 :: rest)) =
          .error (.BlockOptionNotSelected ctx.roleName ctx.spriteName "doDeleteFromList")) ∧
       (opt.text ≠ "last" → opt.text ≠ "all" → opt.text ≠ "" →
        parseBlock ctx locals (.mk nm tx ats (c0 :: c1 :: rest)) =
          .error (.InvalidProject
            (.BlockOptionUnknown ctx.roleName ctx.spriteName "doDeleteFromList" opt.text))))) ∧
    (c0.get ["option"] = none →
      ∀ iv, parseExpr ctx locals c0 = .ok iv →
        parseBlock ctx locals (.mk nm tx ats (c0 :: c1 :: rest)) =
          .ok (.RemoveAt lv iv cmt, locals)) := by
  have base := parseBlock_doDelete ctx locals nm tx ats c0 c1 rest sv hs hv
  rw [hcm, hl] at base
  simp only [Bind.bind, Except.bind] at base
  constructor
  · intro opt hopt
    simp only [hopt] at base
    refine ⟨?_, ?_, ?_, ?_⟩
    · intro ht
      rw [base, ht]
      rfl
    · intro ht
      rw [base, ht]
      rfl
    · intro ht
      rw [base, ht]
      rfl
    · intro h1 h2 h3
      rw [base]
      split <;> simp_all
  · intro hopt iv hiv
    simp only [hopt] at base
    rw [base, hiv]

/-- C6 witness: constant option `last` yields `Pop` of the decoded list
expression with no comment. -/
theorem c6_witness :
    parseBlock ctx0 SymbolTable.empty
        (.mk "block" "" [⟨"s", "doDeleteFromList"⟩] [c6wNodeCarrier, lxsNode]) =
      .ok (.Pop (.Value (.String "xs")) none, SymbolTable.empty) :=
  ((c6_delete_from_list_dispatch ctx0 SymbolTable.empty "block" ""
      [⟨"s", "doDeleteFromList"⟩] c6wNodeCarrier lxsNode [] ⟨"s", "doDeleteFromList"⟩
      none (.Value (.String "xs")) rfl rfl rfl parseExpr_lxs).1
    (.mk "option" "last" [] []) rfl).1 rfl

/-- C9: the three desugared surface block types: `reportListIsEmpty` becomes
`Greater(Listlen(list), 0)`, `reportListContainsItem` becomes
`Greater(ListFind(list, item), 0)`, and `reportCDR` becomes a `ListSlice`
from the constant index 2 with no upper bound; in each case the node's
comment is attached to the OUTER desugared node (the inner node gets none). -/
theorem c9_desugarings (ctx : Ctx) (locals : SymbolTable) :
    (∀ tx ats c0 rest sv cmt v,
      findAttr ats "var" = none → findAttr ats "s" = some sv →
      sv.value = "reportListIsEmpty" →
      checkChildrenGetComment ctx.roleName ctx.spriteName "reportListIsEmpty" 1
        (c0 :: rest) = .ok cmt →
      parseExpr ctx locals c0 = .ok v →
      parseExpr ctx locals (.mk "block" tx ats (c0 :: rest)) =
        .ok (.Greater (.Listlen v none) (.Value (.Number 0)) cmt)) ∧
    (∀ tx ats c0 c1 rest sv cmt v l,
      findAttr ats "var" = none → findAttr ats "s" = some sv →
      sv.value = "reportListContainsItem" →
      checkChildrenGetComment ctx.roleName ctx.spriteName "reportListContainsItem" 2
        (c0 :: c1 :: rest) = .ok cmt →
      parseExpr ctx locals c0 = .ok v → parseExpr ctx locals c1 = .ok l →
      parseExpr ctx locals (.mk "block" tx ats (c0 :: c1 :: rest)) =
        .ok (.Greater (.ListFind l v none) (.Value (.Number 0)) cmt)) ∧
    (∀ tx ats c0 rest sv cmt v,
      findAttr ats "var" = none → findAttr ats "s" = some sv →
      sv.value = "reportCDR" →
      checkChildrenGetComment ctx.roleName ctx.spriteName "reportCDR" 1
        (c0 :: rest) = .ok cmt →
      parseExpr ctx locals c0 = .ok v →
      parseExpr ctx locals (.mk "block" tx ats (c0 :: rest)) =
        .ok (.ListSlice v (some (.Value (.Number 2))) none cmt)) := by
  refine ⟨?_, ?_, ?_⟩
  · intro tx ats c0 rest sv cmt v hvar hs hv hcm hv0
    rw [parseExpr.eq_def]
    simp only [hvar, hs, hv, show binCtor "reportListIsEmpty" = none from rfl,
      show unCtor "reportListIsEmpty" = none from rfl,
      show variadicCtor "reportListIsEmpty" = none from rfl,
      String.reduceEq, hcm, hv0, Bind.bind, Except.bind]
  · intro tx ats c0 c1 rest sv cmt v l hvar hs hv hcm hv0 hv1
    rw [parseExpr.eq_def]
    simp only [hvar, hs, hv, show binCtor "reportListContainsItem" = none from rfl,
      show unCtor "reportListContainsItem" = none from rfl,
      show variadicCtor "reportListContainsItem" = none from rfl,
      String.reduceEq, hcm, hv0, hv1, Bind.bind, Except.bind]
  · intro tx ats c0 rest sv cmt v hvar hs hv hcm hv0
    rw [parseExpr.eq_def]
    simp only [hvar, hs, hv, show binCtor "reportCDR" = none from rfl,
      show unCtor "reportCDR" =
        some (fun v c => .ListSlice v (some (.Value (.Number 2))) none c) from rfl,
      String.reduceEq, hcm, hv0, Bind.bind, Except.bind]

/-- C9 witness: concrete nodes for each of the three desugared block types
decode to the desugared primitives. -/
theorem c9_witness :
    parseExpr ctx0 SymbolTable.empty c9EmptyNode =
      .ok (.Greater (.Listlen (.Value (.Bool true)) none) (.Value (.Number 0)) none) ∧
    parseExpr ctx0 SymbolTable.empty c9ContainsNode =
      .ok (.Greater (.ListFind (.Value (.Bool false)) (.Value (.Bool true)) none)
        (.Value (.Number 0)) none) ∧
    parseExpr ctx0 SymbolTable.empty c9CdrNode =
      .ok (.ListSlice (.Value (.Bool true)) (some (.Value (.Number 2))) none none) := by
  refine ⟨?_, ?_, ?_⟩
  · exact (c9_desugarings ctx0 SymbolTable.empty).1 "" [⟨"s", "reportListIsEmpty"⟩]
      boolTrueNode [] ⟨"s", "reportListIsEmpty"⟩ none (.Value (.Bool true))
      rfl rfl rfl rfl parseExpr_boolTrue
  · exact (c9_desugarings ctx0 SymbolTable.empty).2.1 "" [⟨"s", "reportListContainsItem"⟩]
      boolTrueNode boolFalseNode [] ⟨"s", "reportListContainsItem"⟩ none
      (.Value (.Bool true)) (.Value (.Bool false))
      rfl rfl rfl rfl parseExpr_boolTrue parseExpr_boolFalse
  · exact (c9_desugarings ctx0 SymbolTable.empty).2.2 "" [⟨"s", "reportCDR"⟩]
      boolTrueNode [] ⟨"s", "reportCDR"⟩ none (.Value (.Bool true))
      rfl rfl rfl rfl parseExpr_boolTrue

/-- C10: a `reportCONS` block with at least two children emits a `Listcat`
whose BOTH elements are the decoding of the FIRST child (the source decodes
`children[0]` twice, src/ast.rs lines 737-738); the second child is never
decoded, so its content neither causes an error nor appears in the result. -/
theorem c10_cons_decodes_first_child_twice (ctx : Ctx) (locals : SymbolTable)
    (tx : String) (ats : List XmlAttr) (c0 c1 : Xml) (rest : List Xml)
    (sv : XmlAttr) (cmt : Option String) (v : Expr)
    (hvar : findAttr ats "var" = none)
    (hs : findAttr ats "s" = some sv)
    (hv : sv.value = "reportCONS")
    (hcm : checkChildrenGetComment ctx.roleName ctx.spriteName "reportCONS" 2
      (c0 :: c1 :: rest) = .ok cmt)
    (hv0 : parseExpr ctx locals c0 = .ok v) :
    parseExpr ctx locals (.mk "block" tx ats (c0 :: c1 :: rest)) =
      .ok (.Listcat [v, v] cmt) := by
  rw [parseExpr.eq_def]
  simp only [hvar, hs, hv, show binCtor "reportCONS" = none from rfl,
    show unCtor "reportCONS" = none from rfl,
    show variadicCtor "reportCONS" = none from rfl,
    String.reduceEq, hcm, hv0, Bind.bind, Except.bind]

/-- C10 witness: the second child of the concrete `reportCONS` node is a
`bool` node with unrecognized text that WOULD fail to decode, yet the block
decodes successfully, duplicating the first child. -/
theorem c10_witness :
    parseExpr ctx0 SymbolTable.empty c10Node =
      .ok (.Listcat [.Value (.Bool true), .Value (.Bool true)] none) :=
  c10_cons_decodes_first_child_twice ctx0 SymbolTable.empty "" [⟨"s", "reportCONS"⟩]
    boolTrueNode (.mk "bool" "bad" [] []) [] ⟨"s", "reportCONS"⟩ none (.Value (.Bool true))
    rfl rfl rfl rfl parseExpr_boolTrue
